import Mathlib

/-!
Verification of the CHIME dashboard sidebar module
(`src/chime_dash/app/pages/sidebar.py`): the input schema table `_INPUTS`,
the value-coercion pipeline `Sidebar.get_formated_values`, the parameter
assembler `Sidebar.update_parameters`, and the download-link builder
`Sidebar.get_download_as_pdf_link`, shallowly embedded in Lean.

Python values flowing through the form are modelled by the inductive type
`Val`; Python dicts (which preserve insertion order) by ordered association
lists; Python exceptions by `Except` with an explicit error type.
Python floats are modelled as rationals: the claims under study concern
divisions by 100 and truthiness, not float rounding.
-/

namespace Chime

/-- A Python calendar date (`datetime.date`): year, month, day. -/
structure PyDate where
  year : Nat
  month : Nat
  day : Nat
deriving DecidableEq, Repr

/-- A raw or coerced Python value as it appears in the sidebar pipeline:
`None`, ints, floats (as rationals), strings, booleans, dates, and the
list values produced by the Checklist widget used for switch inputs.
Structural equality is used for the `result[key] == [True]` test in
`get_formated_values`; the raw domain of a switch field is `[]` or
`[True]` (the Checklist's single option), where this agrees with Python
`==`. -/
inductive Val where
  | none : Val
  | int : Int → Val
  | float : ℚ → Val
  | str : String → Val
  | bool : Bool → Val
  | date : PyDate → Val
  | list : List Val → Val
deriving Repr

/-- The test `val is not None` from the link builder: true on every value
other than the `None` constructor (so `False`, `0` and `""` all pass). -/
def isNotNone : Val → Bool
  | Val.none => false
  | _ => true

mutual

/-- Structural equality test on values. -/
def valBeq : Val → Val → Bool
  | Val.none, Val.none => true
  | Val.int a, Val.int b => a == b
  | Val.float a, Val.float b => a == b
  | Val.str a, Val.str b => a == b
  | Val.bool a, Val.bool b => a == b
  | Val.date a, Val.date b => a == b
  | Val.list a, Val.list b => valListBeq a b
  | _, _ => false

/-- Elementwise structural equality test on value lists. -/
def valListBeq : List Val → List Val → Bool
  | [], [] => true
  | a :: as, b :: bs => valBeq a b && valListBeq as bs
  | _, _ => false

end

mutual

/-- `valBeq` decides equality. -/
theorem valBeq_iff : (a b : Val) → (valBeq a b = true ↔ a = b)
  | Val.none, b => by cases b <;> simp [valBeq]
  | Val.int a, b => by cases b <;> simp [valBeq]
  | Val.float a, b => by cases b <;> simp [valBeq]
  | Val.str a, b => by cases b <;> simp [valBeq]
  | Val.bool a, b => by cases b <;> simp [valBeq]
  | Val.date a, b => by cases b <;> simp [valBeq]
  | Val.list as, b => by
      cases b <;> simp [valBeq]
      case list bs => exact valListBeq_iff as bs

/-- `valListBeq` decides equality. -/
theorem valListBeq_iff : (as bs : List Val) → (valListBeq as bs = true ↔ as = bs)
  | [], [] => by simp [valListBeq]
  | [], _ :: _ => by simp [valListBeq]
  | _ :: _, [] => by simp [valListBeq]
  | a :: as, b :: bs => by
      simp [valListBeq, Bool.and_eq_true, valBeq_iff a b, valListBeq_iff as bs]

end

instance : DecidableEq Val := fun a b => decidable_of_iff _ (valBeq_iff a b)

/-- The test `result[key] == [True]` from `get_formated_values`: equality
with the one-element list holding the boolean `True`. -/
def isSingletonTrue (v : Val) : Bool := v == Val.list [Val.bool true]

/-- Python truthiness (`bool(v)`) for the modelled values. -/
def truthy : Val → Bool
  | Val.none => false
  | Val.int n => n != 0
  | Val.float q => q != 0
  | Val.str s => s != ""
  | Val.bool b => b
  | Val.date _ => true
  | Val.list l => !l.isEmpty

/-- A Python dict with string keys, modelled as an ordered association
list (Python dicts preserve insertion order). -/
abbrev PyDict := List (String × Val)

/-- `d[k]` lookup returning `none` when the key is absent. -/
def dictGet : PyDict → String → Option Val
  | [], _ => Option.none
  | (k', v) :: rest, k => if k' = k then Option.some v else dictGet rest k

/-- `d[k] = v` assignment: updates the existing entry in place (keeping
its position, as Python dicts do) or appends a fresh entry at the end. -/
def dictSet : PyDict → String → Val → PyDict
  | [], k, v => [(k, v)]
  | (k', v') :: rest, k, v =>
      if k' = k then (k, v) :: rest else (k', v') :: dictSet rest k v

/-- The Python exceptions the sidebar pipeline can raise: `KeyError`
(missing dict key), `ValueError` from `datetime.strptime` (whose message
contains the offending time data — the raw value string — and the format,
not the field key), and `TypeError` (`strptime` applied to a non-string,
or arithmetic on a non-number). -/
inductive PyError where
  | keyError : String → PyError
  | valueError : String → PyError
  | typeError : PyError
deriving DecidableEq, Repr

/-! ### Date parsing: `datetime.strptime(value, "%Y-%m-%d").date()` -/

/-- Split a character list on a separator character (like Python's
`str.split` on a single character); used to model the `-` separators of
the `%Y-%m-%d` format. -/
def splitOnChar (c : Char) : List Char → List (List Char)
  | [] => [[]]
  | x :: xs =>
      let rest := splitOnChar c xs
      if x = c then [] :: rest
      else
        match rest with
        | r :: rs => (x :: r) :: rs
        | [] => [[x]]

/-- Numeric value of a digit string. -/
def digitsToNat (cs : List Char) : Nat :=
  cs.foldl (fun acc c => acc * 10 + (c.toNat - 48)) 0

/-- Nonempty and all decimal digits. -/
def allDigits (cs : List Char) : Bool :=
  !cs.isEmpty && cs.all Char.isDigit

/-- Length of a month, with Gregorian leap years (as `datetime.date`
validates). -/
def daysInMonth (y m : Nat) : Nat :=
  if m = 2 then
    if y % 4 = 0 && (y % 100 != 0 || y % 400 = 0) then 29 else 28
  else if m = 4 || m = 6 || m = 9 || m = 11 then 30 else 31

/-- `datetime.strptime(s, "%Y-%m-%d").date()`, returning `none` where
Python raises `ValueError`: the year must be exactly four digits (and
nonzero, as `date` requires `year >= 1`), month and day one or two digits
in range, and the day must exist in the given month. -/
def parseDate (s : String) : Option PyDate :=
  match splitOnChar '-' s.toList with
  | [ys, ms, ds] =>
      if ys.length = 4 && ys.all Char.isDigit
          && allDigits ms && ms.length ≤ 2
          && allDigits ds && ds.length ≤ 2 then
        let y := digitsToNat ys
        let m := digitsToNat ms
        let d := digitsToNat ds
        if 1 ≤ y && 1 ≤ m && m ≤ 12 && 1 ≤ d && d ≤ daysInMonth y m then
          Option.some ⟨y, m, d⟩
        else Option.none
      else Option.none
  | _ => Option.none

/-- Zero-pad a natural number to a given width. -/
def padNat (width : Nat) (n : Nat) : String :=
  let s := toString n
  String.mk (List.replicate (width - s.length) '0') ++ s

/-- `str(d)` / `d.isoformat()` for a Python date: `YYYY-MM-DD`. -/
def toIso (d : PyDate) : String :=
  padNat 4 d.year ++ "-" ++ padNat 2 d.month ++ "-" ++ padNat 2 d.day

/-! ### Rendering values as Python `str` (for the query string) -/

/-- Decimal digits of the fraction `r / d` (with `r < d`), at most `fuel`
of them, by long division. -/
def fracDigits : Nat → Nat → Nat → List Char
  | 0, _, _ => []
  | fuel + 1, r, d =>
      if r = 0 then []
      else
        let r10 := r * 10
        Char.ofNat (48 + r10 / d) :: fracDigits fuel (r10 % d) d

/-- `str` of a Python float (modelled as a rational): sign, integer
part, a dot, and the fractional digits (`.0` when the value is
integral), computed by long division on the reduced
numerator/denominator. -/
def floatStr (q : ℚ) : String :=
  let sign := if q.num < 0 then "-" else ""
  let n := q.num.natAbs
  let ip := n / q.den
  let digs := fracDigits 17 (n % q.den) q.den
  sign ++ toString ip ++ "." ++ (if digs.isEmpty then "0" else String.mk digs)

mutual

/-- Python `str(v)` for the modelled values, as used by
`"{key}={val}".format(...)` in the link builder: `None`, decimal ints,
floats, the string itself, `True`/`False`, ISO dates, and bracketed
lists with `repr`-rendered elements (the only lists the pipeline ever
renders are the switch raw values `[]` and `[True]`). -/
def pyStr : Val → String
  | Val.none => "None"
  | Val.int n => toString n
  | Val.float q => floatStr q
  | Val.str s => s
  | Val.bool b => if b then "True" else "False"
  | Val.date d => toIso d
  | Val.list l => "[" ++ String.intercalate ", " (pyReprList l) ++ "]"

/-- The elements of a rendered list, `repr`-style: strings quoted,
everything else as `pyStr`. -/
def pyReprList : List Val → List String
  | [] => []
  | Val.str s :: vs => ("\x27" ++ s ++ "\x27") :: pyReprList vs
  | v :: vs => pyStr v :: pyReprList vs

end

/-! ### The input schema table `_INPUTS` -/

/-- The `type` tag of a sidebar input descriptor. -/
inductive Kind where
  | header : Kind
  | number : Kind
  | date : Kind
  | switch : Kind
  | link : Kind
deriving DecidableEq, Repr

/-- One entry of `_INPUTS`: its `type` tag and, for number inputs, the
declared `min`/`max` bounds (other dict entries — `step`, `percent`,
`size`, the date widget settings — do not affect the pipeline under
study). -/
structure InputSpec where
  kind : Kind
  min? : Option ℚ
  max? : Option ℚ
deriving Repr

/-- `FLOAT_INPUT_MIN = 0.001` (written with `mkRat`, which — unlike the
field operations on `ℚ` — evaluates by reduction in proofs). -/
def FLOAT_INPUT_MIN : ℚ := mkRat 1 1000

/-- A `{"type": "header", ...}` descriptor. -/
def headerSpec : InputSpec := ⟨Kind.header, Option.none, Option.none⟩

/-- A `{"type": "number", "min": mn, ...}` descriptor without a `max`. -/
def numSpec (mn : ℚ) : InputSpec := ⟨Kind.number, Option.some mn, Option.none⟩

/-- A percent-valued number descriptor: `min` as given, `max` 100. -/
def pctSpec (mn : ℚ) : InputSpec := ⟨Kind.number, Option.some mn, Option.some 100⟩

/-- A `{"type": "date", ...}` descriptor. -/
def dateSpec : InputSpec := ⟨Kind.date, Option.none, Option.none⟩

/-- A `{"type": "switch", ...}` descriptor. -/
def switchSpec : InputSpec := ⟨Kind.switch, Option.none, Option.none⟩

/-- A `{"type": "link"}` descriptor. -/
def linkSpec : InputSpec := ⟨Kind.link, Option.none, Option.none⟩

/-- The ordered schema table `_INPUTS` of `sidebar.py`, with each field's
`type` and numeric bounds, in source order. -/
def INPUTS : List (String × InputSpec) :=
  [("hospital_parameters", headerSpec),
   ("population", numSpec 1),
   ("market_share", pctSpec FLOAT_INPUT_MIN),
   ("current_hospitalized", numSpec 0),
   ("spread_parameters", headerSpec),
   ("date_first_hospitalized", dateSpec),
   ("doubling_time", numSpec FLOAT_INPUT_MIN),
   ("relative_contact_rate", pctSpec 0),
   ("severity_parameters", headerSpec),
   ("hospitalized_rate", pctSpec 0),
   ("icu_rate", pctSpec 0),
   ("ventilated_rate", pctSpec 0),
   ("infectious_days", numSpec 0),
   ("hospitalized_los", numSpec 0),
   ("icu_los", numSpec 0),
   ("ventilated_los", numSpec 0),
   ("display_parameters", headerSpec),
   ("n_days", numSpec 30),
   ("current_date", dateSpec),
   ("max_y_axis_value", numSpec 10),
   ("show_tables", switchSpec),
   ("show_tool_details", switchSpec),
   ("download_as_pdf_link", linkSpec)]

/-- The filter `_INPUTS[key]["type"] not in ("header", "link")`. -/
def isInteractive (spec : InputSpec) : Bool :=
  match spec.kind with
  | Kind.header => false
  | Kind.link => false
  | _ => true

/-- `Sidebar.get_ordered_input_keys`: the keys of `_INPUTS` whose type is
neither `header` nor `link`, in table order. -/
def get_ordered_input_keys : List String :=
  (INPUTS.filter fun kv => isInteractive kv.2).map Prod.fst

/-! ### The value-coercion pipeline `Sidebar.get_formated_values` -/

/-- One iteration of the `for key in _INPUTS` loop of
`get_formated_values`: switch values are replaced by
`result[key] == [True]`, truthy date values are parsed with
`datetime.strptime(value, "%Y-%m-%d").date()` (raising `ValueError` on an
unparseable string and `TypeError` on a non-string), falsy date values
and all other kinds are left unchanged. A switch or date key absent from
`result` raises `KeyError`. -/
def coerceField (k : String) (spec : InputSpec) (result : PyDict) :
    Except PyError PyDict :=
  match spec.kind with
  | Kind.switch =>
      match dictGet result k with
      | Option.none => Except.error (PyError.keyError k)
      | Option.some v =>
          Except.ok (dictSet result k (Val.bool (isSingletonTrue v)))
  | Kind.date =>
      match dictGet result k with
      | Option.none => Except.error (PyError.keyError k)
      | Option.some v =>
          if truthy v then
            match v with
            | Val.str s =>
                match parseDate s with
                | Option.some dd => Except.ok (dictSet result k (Val.date dd))
                | Option.none => Except.error (PyError.valueError s)
            | _ => Except.error PyError.typeError
          else Except.ok result
  | _ => Except.ok result

/-- Run the coercion loop over (the remaining suffix of) the schema
table. -/
def applyCoercions : List (String × InputSpec) → PyDict → Except PyError PyDict
  | [], result => Except.ok result
  | (k, spec) :: rest, result =>
      match coerceField k spec result with
      | Except.error e => Except.error e
      | Except.ok r => applyCoercions rest r

/-- `Sidebar.get_formated_values`: zip the ordered interactive keys with
the raw input values into a dict (`dict(zip(...))` — like Python's `zip`,
this silently truncates to the shorter of the two), then run the
per-kind coercion loop over the whole schema table. -/
def get_formated_values (input_values : List Val) : Except PyError PyDict :=
  applyCoercions INPUTS (List.zip get_ordered_input_keys input_values)

/-! ### The parameter assembler `Sidebar.update_parameters` -/

/-- `penn_chime.parameters.Disposition`: a (rate, length-of-stay) pair,
as the sidebar constructs it. -/
structure Disposition where
  rate : Val
  days : Val
deriving Repr, DecidableEq

/-- The external `penn_chime.parameters.Parameters` record, with exactly
the keyword arguments the sidebar's `update_parameters` supplies. -/
structure Parameters where
  population : Val
  current_hospitalized : Val
  date_first_hospitalized : Val
  doubling_time : Val
  hospitalized : Disposition
  icu : Disposition
  infectious_days : Val
  market_share : Val
  n_days : Val
  relative_contact_rate : Val
  ventilated : Disposition
  max_y_axis : Val
deriving Repr, DecidableEq

/-- `d[k]` as an expression: `KeyError` when absent. -/
def getItem (d : PyDict) (k : String) : Except PyError Val :=
  match dictGet d k with
  | Option.some v => Except.ok v
  | Option.none => Except.error (PyError.keyError k)

/-- Division of a rational by 100, written with `mkRat` so that it
evaluates by reduction; `div100q_eq` below proves it equal to `· / 100`. -/
def div100q (q : ℚ) : ℚ := mkRat q.num (q.den * 100)

/-- `div100q` is division by 100. -/
theorem div100q_eq (q : ℚ) : div100q q = q / 100 := by
  rw [div100q, Rat.mkRat_eq_divInt, Rat.divInt_eq_div]
  push_cast
  rw [div_mul_eq_div_div, Rat.num_div_den]

/-- Python `v / 100` on a form value: ints, floats and booleans divide as
numbers (always yielding a float); anything else raises `TypeError`. -/
def div100 : Val → Except PyError Val
  | Val.int n => Except.ok (Val.float (div100q (n : ℚ)))
  | Val.float q => Except.ok (Val.float (div100q q))
  | Val.bool b => Except.ok (Val.float (div100q (if b then 1 else 0)))
  | _ => Except.error PyError.typeError

/-- The body of `Sidebar.update_parameters` after the call to
`get_formated_values`: computes
`dt = inputs_dict["doubling_time"] if inputs_dict["doubling_time"] else None`,
`dfh = inputs_dict["date_first_hospitalized"] if not dt else None`, then
builds the `Parameters` record with the percent-valued fields divided by
100, in the evaluation order of the Python call. -/
def assembleFromDict (d : PyDict) : Except PyError Parameters := do
  let dtRaw ← getItem d "doubling_time"
  let dt := if truthy dtRaw then dtRaw else Val.none
  let dfh ← if truthy dt then pure Val.none
            else getItem d "date_first_hospitalized"
  let population ← getItem d "population"
  let current_hospitalized ← getItem d "current_hospitalized"
  let hospitalized_rate ← getItem d "hospitalized_rate"
  let hr ← div100 hospitalized_rate
  let hospitalized_los ← getItem d "hospitalized_los"
  let icu_rate ← getItem d "icu_rate"
  let ir ← div100 icu_rate
  let icu_los ← getItem d "icu_los"
  let infectious_days ← getItem d "infectious_days"
  let market_share ← getItem d "market_share"
  let ms ← div100 market_share
  let n_days ← getItem d "n_days"
  let relative_contact_rate ← getItem d "relative_contact_rate"
  let rcr ← div100 relative_contact_rate
  let ventilated_rate ← getItem d "ventilated_rate"
  let vr ← div100 ventilated_rate
  let ventilated_los ← getItem d "ventilated_los"
  let max_y_axis := (dictGet d "max_y_axis_value").getD Val.none
  return ⟨population, current_hospitalized, dfh, dt,
          ⟨hr, hospitalized_los⟩, ⟨ir, icu_los⟩,
          infectious_days, ms, n_days, rcr,
          ⟨vr, ventilated_los⟩, max_y_axis⟩

/-- `Sidebar.update_parameters`: coerce the raw ordered form values and
assemble the `Parameters` record (the final `parameters_serializer`
wrapping, which lives outside this module, is not modelled). -/
def update_parameters (input_values : List Val) : Except PyError Parameters := do
  let d ← get_formated_values input_values
  assembleFromDict d

/-! ### The download-link builder `Sidebar.get_download_as_pdf_link` -/

/-- `Sidebar.DOWNLOAD_AS_PDF_URL`. -/
def DOWNLOAD_AS_PDF_URL : String := "/download-as-pdf"

/-- The list comprehension of `get_download_as_pdf_link`: one
`"{key}={val}"` string per dict entry, keeping only entries whose key is
not `model`/`pars` and whose value `is not None`, in dict order. -/
def queryParts (d : PyDict) : List String :=
  (d.filter fun kv =>
      !(kv.1 == "model" || kv.1 == "pars") && isNotNone kv.2).map
    fun kv => kv.1 ++ "=" ++ pyStr kv.2

/-- `base + "?" + "&".join(parts)`. -/
def buildLink (base : String) (d : PyDict) : String :=
  base ++ "?" ++ String.intercalate "&" (queryParts d)

/-- `Sidebar.get_download_as_pdf_link`: coerce the raw ordered form
values and render them as a query string on the class's base URL. -/
def get_download_as_pdf_link (input_values : List Val) :
    Except PyError String := do
  let d ← get_formated_values input_values
  return buildLink DOWNLOAD_AS_PDF_URL d

/-! ### Derived characterizations of the coercion steps

These are not embeddings of source code but derived notions used to state
what the pipeline produces on well-formed inputs; the lemmas below prove
the pipeline equal to them. -/

/-- What a date field's raw value becomes, when its coercion succeeds:
a falsy value passes through unchanged, a parseable string becomes a
date, and anything else (an unparseable nonempty string, a truthy
non-string) makes the pipeline raise — `Option.none` here. -/
def dateCoerce? (v : Val) : Option Val :=
  if truthy v then
    match v with
    | Val.str s => (parseDate s).map Val.date
    | _ => Option.none
  else Option.some v

/-- What a switch field's raw value becomes. -/
def switchCoerced (v : Val) : Val := Val.bool (isSingletonTrue v)

/-- The download query parts as §4.4 of the spec words them: each map
entry serialized as `key=value`, in order, except that entries with the
transient keys `model`/`pars` and entries whose value is null are omitted
entirely. Stated with `filterMap` for comparison against the source's
filter-then-format comprehension. -/
def specQueryParts (d : PyDict) : List String :=
  d.filterMap fun kv =>
    if kv.1 = "model" ∨ kv.1 = "pars" then Option.none
    else
      match kv.2 with
      | Val.none => Option.none
      | v => Option.some (kv.1 ++ "=" ++ pyStr v)

/-! ### Spec-modelled validation (§4.3, §7)

The sidebar passes the assembled fields to the external
`penn_chime.parameters.Parameters` constructor, whose definition is not
part of the sources under study. -/

/-- Modelled from the spec: the validation failure of §7 — "a coerced
value violates its declared bound"; it names the offending field. -/
inductive ValidationError where
  | missingField : String → ValidationError
  | outOfRange : String → ValidationError
deriving DecidableEq, Repr

/-- Numeric value of a form value, if it is one (Python booleans count as
0/1). -/
def asNum? : Val → Option ℚ
  | Val.int n => Option.some (n : ℚ)
  | Val.float q => Option.some q
  | Val.bool b => Option.some (if b then 1 else 0)
  | _ => Option.none

/-- Modelled from the spec: validation of one coerced field against the
schema table, as performed by the missing `Parameters` constructor
(`penn_chime.parameters`, imported by `sidebar.py` but absent from the
sources under study). Per §4.3/§7: a required numeric field that is
missing or out of its declared `min`/`max` bounds surfaces a
`ValidationError` naming the field, and no default is substituted.
Per §9, `max_y_axis_value` is intentionally optional and unvalidated;
per the §4.3 mutual-exclusion rule, a falsy or absent `doubling_time` is
allowed (the date drives the spread instead). -/
def validateOne (d : PyDict) (k : String) (spec : InputSpec) :
    Except ValidationError Unit :=
  if spec.kind = Kind.number ∧ k ≠ "max_y_axis_value" then
    match dictGet d k with
    | Option.none =>
        if k = "doubling_time" then Except.ok ()
        else Except.error (ValidationError.missingField k)
    | Option.some v =>
        if k = "doubling_time" ∧ truthy v = false then Except.ok ()
        else
          match asNum? v with
          | Option.none => Except.error (ValidationError.outOfRange k)
          | Option.some q =>
              if (match spec.min? with
                  | Option.some mn => decide (mn ≤ q)
                  | Option.none => true)
                  && (match spec.max? with
                      | Option.some mx => decide (q ≤ mx)
                      | Option.none => true) then Except.ok ()
              else Except.error (ValidationError.outOfRange k)
  else Except.ok ()

/-- Modelled from the spec: run the per-field validation over (a suffix
of) the schema table, reporting the first violation. -/
def validateFields (d : PyDict) : List (String × InputSpec) →
    Except ValidationError Unit
  | [] => Except.ok ()
  | (k, spec) :: rest =>
      match validateOne d k spec with
      | Except.error e => Except.error e
      | Except.ok _ => validateFields d rest

/-- Modelled from the spec: validate every field of the coerced map
against its declared bounds (§4.3 failure mode). -/
def validateCoerced (d : PyDict) : Except ValidationError Unit :=
  validateFields d INPUTS

deriving instance DecidableEq for Except

/-- An assembly failure: either a spec-modelled validation error from the
`Parameters` constructor, or a Python-level error from the sidebar's own
dictionary accesses and arithmetic. -/
inductive AssembleError where
  | validation : ValidationError → AssembleError
  | py : PyError → AssembleError
deriving DecidableEq, Repr

/-- Modelled from the spec: the assembler including the `Parameters`
constructor's validation — coerced values are checked against their
declared bounds before the record is built. -/
def validatedAssemble (d : PyDict) : Except AssembleError Parameters :=
  match validateCoerced d with
  | Except.error e => Except.error (AssembleError.validation e)
  | Except.ok _ =>
      match assembleFromDict d with
      | Except.error e => Except.error (AssembleError.py e)
      | Except.ok p => Except.ok p

/-! ### General lemmas about the embedded operations -/

/-- Case analysis on a successful date coercion: either the raw value is
falsy and passes through, or it is a string that parses to a date. -/
theorem dateCoerce?_cases {v w : Val} (h : dateCoerce? v = Option.some w) :
    (truthy v = false ∧ w = v) ∨
    (∃ s dd, v = Val.str s ∧ parseDate s = Option.some dd ∧
      w = Val.date dd ∧ truthy v = true) := by
  by_cases t : truthy v
  · right
    unfold dateCoerce? at h
    rw [if_pos t] at h
    cases v <;> simp_all
    cases hp : parseDate _ <;> simp_all
  · left
    unfold dateCoerce? at h
    rw [if_neg t] at h
    simp_all

/-- Re-assigning the value a key already has leaves the dict unchanged. -/
theorem dictSet_self : ∀ (d : PyDict) (k : String) (v : Val),
    dictGet d k = Option.some v → dictSet d k v = d := by
  intro d
  induction d with
  | nil => intro k v h; simp [dictGet] at h
  | cons kv rest ih =>
      intro k v h
      obtain ⟨k', v'⟩ := kv
      by_cases e : k' = k
      · subst e
        simp [dictGet] at h
        simp [dictSet, h]
      · simp [dictGet, e] at h
        simp [dictSet, e, ih k v h]

/-- Full characterization of the coercion pipeline on a well-formed raw
sequence of the correct length (18 values, one per interactive key, with
both date fields coercible): the result is the positional dict with the
two date fields and the two switch fields coerced and every other value
passed through unchanged, in table order. -/
theorem get_formated_values_eq
    (v0 v1 v2 v3 v4 v5 v6 v7 v8 v9 v10 v11 v12 v13 v14 v15 v16 v17 w3 w14 : Val)
    (h3 : dateCoerce? v3 = Option.some w3)
    (h14 : dateCoerce? v14 = Option.some w14) :
    get_formated_values
      [v0, v1, v2, v3, v4, v5, v6, v7, v8, v9, v10, v11, v12, v13, v14,
       v15, v16, v17] =
    Except.ok
      [("population", v0), ("market_share", v1), ("current_hospitalized", v2),
       ("date_first_hospitalized", w3), ("doubling_time", v4),
       ("relative_contact_rate", v5), ("hospitalized_rate", v6),
       ("icu_rate", v7), ("ventilated_rate", v8), ("infectious_days", v9),
       ("hospitalized_los", v10), ("icu_los", v11), ("ventilated_los", v12),
       ("n_days", v13), ("current_date", w14), ("max_y_axis_value", v15),
       ("show_tables", switchCoerced v16),
       ("show_tool_details", switchCoerced v17)] := by
  rcases dateCoerce?_cases h3 with ⟨t3, rfl⟩ | ⟨s3, dd3, rfl, hp3, rfl, t3⟩ <;>
    rcases dateCoerce?_cases h14 with ⟨t14, rfl⟩ | ⟨s14, dd14, rfl, hp14, rfl, t14⟩ <;>
      simp [get_formated_values, get_ordered_input_keys, INPUTS, isInteractive,
        applyCoercions, coerceField, headerSpec, numSpec, pctSpec, dateSpec,
        switchSpec, linkSpec, dictGet, dictSet, switchCoerced, *]

/-- Decompose a successful `Except` bind. -/
theorem except_bind_ok {ε α β : Type} (x : Except ε α) (f : α → Except ε β)
    (b : β) :
    x >>= f = Except.ok b ↔ ∃ a, x = Except.ok a ∧ f a = Except.ok b := by
  cases x <;> simp [Bind.bind, Except.bind]

/-- A successful `pure` in `Except`. -/
theorem except_pure_ok {ε α : Type} (a b : α) :
    (pure a : Except ε α) = Except.ok b ↔ a = b := by
  simp [pure, Except.pure]

/-- `getItem` succeeds exactly on present keys. -/
theorem getItem_ok {d : PyDict} {k : String} {v : Val} :
    getItem d k = Except.ok v ↔ dictGet d k = Option.some v := by
  cases h : dictGet d k <;> simp [getItem, h]

/-- Everything a successful assembly determines: which keys were read
from the coerced map, which fields were divided by 100, which were passed
through, and the doubling-time/date mutual exclusion. -/
theorem assemble_ok_spec (d : PyDict) (p : Parameters)
    (h : assembleFromDict d = Except.ok p) :
    ∃ dtv pop ch hrv irv infv msv ndv rcrv vrv,
      dictGet d "doubling_time" = Option.some dtv ∧
      dictGet d "population" = Option.some pop ∧
      dictGet d "current_hospitalized" = Option.some ch ∧
      dictGet d "hospitalized_rate" = Option.some hrv ∧
      dictGet d "hospitalized_los" = Option.some p.hospitalized.days ∧
      dictGet d "icu_rate" = Option.some irv ∧
      dictGet d "icu_los" = Option.some p.icu.days ∧
      dictGet d "infectious_days" = Option.some infv ∧
      dictGet d "market_share" = Option.some msv ∧
      dictGet d "n_days" = Option.some ndv ∧
      dictGet d "relative_contact_rate" = Option.some rcrv ∧
      dictGet d "ventilated_rate" = Option.some vrv ∧
      dictGet d "ventilated_los" = Option.some p.ventilated.days ∧
      p.population = pop ∧ p.current_hospitalized = ch ∧
      div100 hrv = Except.ok p.hospitalized.rate ∧
      div100 irv = Except.ok p.icu.rate ∧
      p.infectious_days = infv ∧
      div100 msv = Except.ok p.market_share ∧
      p.n_days = ndv ∧
      div100 rcrv = Except.ok p.relative_contact_rate ∧
      div100 vrv = Except.ok p.ventilated.rate ∧
      p.max_y_axis = (dictGet d "max_y_axis_value").getD Val.none ∧
      p.doubling_time = (if truthy dtv then dtv else Val.none) ∧
      ((truthy dtv = true ∧ p.date_first_hospitalized = Val.none) ∨
       (truthy dtv = false ∧
         dictGet d "date_first_hospitalized" =
           Option.some p.date_first_hospitalized)) := by
  simp only [assembleFromDict, except_bind_ok, except_pure_ok, getItem_ok] at h
  obtain ⟨dtv, hdtv, h⟩ := h
  refine ⟨dtv, ?_⟩
  have tn : truthy Val.none = false := rfl
  by_cases t : truthy dtv
  · simp only [t, if_true, eq_self_iff_true] at h
    simp only [except_bind_ok, except_pure_ok, getItem_ok] at h
    obtain ⟨dfh, rfl, pop, hpop, ch, hch, hrv, hhrv, hr, hhr, hlv, hhlv,
      irv, hirv, ir, hir, ilv, hilv, infv, hinfv, msv, hmsv, ms, hms,
      ndv, hndv, rcrv, hrcrv, rcr, hrcr, vrv, hvrv, vr, hvr, vlv, hvlv,
      hp⟩ := h
    subst hp
    exact ⟨pop, ch, hrv, irv, infv, msv, ndv, rcrv, vrv, hdtv, hpop, hch,
      hhrv, hhlv, hirv, hilv, hinfv, hmsv, hndv, hrcrv, hvrv, hvlv,
      rfl, rfl, hhr, hir, rfl, hms, rfl, hrcr, hvr, rfl,
      by simp [t], Or.inl ⟨t, rfl⟩⟩
  · simp only [t, if_false, Bool.not_eq_true] at h
    rw [if_neg (by simp [tn])] at h
    simp only [except_bind_ok, except_pure_ok, getItem_ok] at h
    obtain ⟨dfh, hdfh, pop, hpop, ch, hch, hrv, hhrv, hr, hhr, hlv, hhlv,
      irv, hirv, ir, hir, ilv, hilv, infv, hinfv, msv, hmsv, ms, hms,
      ndv, hndv, rcrv, hrcrv, rcr, hrcr, vrv, hvrv, vr, hvr, vlv, hvlv,
      hp⟩ := h
    subst hp
    refine ⟨pop, ch, hrv, irv, infv, msv, ndv, rcrv, vrv, hdtv, hpop, hch,
      hhrv, hhlv, hirv, hilv, hinfv, hmsv, hndv, hrcrv, hvrv, hvlv,
      rfl, rfl, hhr, hir, rfl, hms, rfl, hrcr, hvr, rfl,
      by simp [t], Or.inr ⟨by simp [t], by simp [hdfh]⟩⟩

/-! ### Concrete sample data -/

/-- A well-formed raw input sequence, one value per interactive key in
table order: a filled-in form with both a first-hospitalization date and
a doubling time of 4.5, `hospitalized_rate` 8.0 percent, `show_tables`
checked (`[True]`) and `show_tool_details` unchecked (`[]`). -/
def sampleRaw : List Val :=
  [Val.int 500000, Val.float 15, Val.int 50,
   Val.str "2020-03-01", Val.float (mkRat 9 2), Val.float 30,
   Val.float 8, Val.float 2, Val.float 1,
   Val.int 14, Val.int 7, Val.int 9, Val.int 10,
   Val.int 60, Val.str "2020-03-27", Val.none,
   Val.list [Val.bool true], Val.list []]

/-- The coerced value map `get_formated_values` produces for
`sampleRaw`. -/
def sampleCoerced : PyDict :=
  [("population", Val.int 500000),
   ("market_share", Val.float 15),
   ("current_hospitalized", Val.int 50),
   ("date_first_hospitalized", Val.date ⟨2020, 3, 1⟩),
   ("doubling_time", Val.float (mkRat 9 2)),
   ("relative_contact_rate", Val.float 30),
   ("hospitalized_rate", Val.float 8),
   ("icu_rate", Val.float 2),
   ("ventilated_rate", Val.float 1),
   ("infectious_days", Val.int 14),
   ("hospitalized_los", Val.int 7),
   ("icu_los", Val.int 9),
   ("ventilated_los", Val.int 10),
   ("n_days", Val.int 60),
   ("current_date", Val.date ⟨2020, 3, 27⟩),
   ("max_y_axis_value", Val.none),
   ("show_tables", Val.bool true),
   ("show_tool_details", Val.bool false)]

/-- The `Parameters` record assembled from `sampleCoerced`: the truthy
doubling time wins, the date field is dropped, and the five percent
fields are divided by 100. -/
def sampleParams : Parameters :=
  ⟨Val.int 500000, Val.int 50, Val.none, Val.float (mkRat 9 2),
   ⟨Val.float (mkRat 2 25), Val.int 7⟩, ⟨Val.float (mkRat 1 50), Val.int 9⟩,
   Val.int 14, Val.float (mkRat 3 20), Val.int 60, Val.float (mkRat 3 10),
   ⟨Val.float (mkRat 1 100), Val.int 10⟩, Val.none⟩

/-! ### The claims -/

/-- Claim C1: for every coerced value map, the parameter assembly passes
exactly one of `doubling_time` / `date_first_hospitalized` to the
`Parameters` constructor: a truthy coerced doubling time is used with the
date field passed as null regardless of what the form submitted for it;
a falsy doubling time (0, empty, or null) makes the coerced
`date_first_hospitalized` the one used, with `doubling_time` passed as
null. -/
theorem assemble_mutual_exclusion (d : PyDict) (p : Parameters)
    (h : assembleFromDict d = Except.ok p) :
    ∃ dtv, dictGet d "doubling_time" = Option.some dtv ∧
      ((truthy dtv = true ∧ p.doubling_time = dtv ∧
          p.date_first_hospitalized = Val.none) ∨
       (truthy dtv = false ∧ p.doubling_time = Val.none ∧
          dictGet d "date_first_hospitalized" =
            Option.some p.date_first_hospitalized)) := by
  obtain ⟨dtv, _, _, _, _, _, _, _, _, _, hdtv,
    _, _, _, _, _, _, _, _, _, _, _, _, _, _, _, _, _, _, _, _, _, _,
    hdt, hca⟩ := assemble_ok_spec d p h
  refine ⟨dtv, hdtv, ?_⟩
  rcases hca with ⟨t, hdfh⟩ | ⟨t, hdfh⟩
  · exact Or.inl ⟨t, by simp [hdt, t], hdfh⟩
  · exact Or.inr ⟨t, by simp [hdt, t], hdfh⟩

/-- Witness for C1 at a concrete form state: `sampleCoerced` has a
truthy doubling time, so the date is suppressed. -/
theorem assemble_mutual_exclusion_witness :
    assembleFromDict sampleCoerced = Except.ok sampleParams ∧
    ∃ dtv, dictGet sampleCoerced "doubling_time" = Option.some dtv ∧
      ((truthy dtv = true ∧ sampleParams.doubling_time = dtv ∧
          sampleParams.date_first_hospitalized = Val.none) ∨
       (truthy dtv = false ∧ sampleParams.doubling_time = Val.none ∧
          dictGet sampleCoerced "date_first_hospitalized" =
            Option.some sampleParams.date_first_hospitalized)) :=
  ⟨by decide, assemble_mutual_exclusion sampleCoerced sampleParams (by decide)⟩

/-- Claim C2: for every coerced value map, the assembler divides each of
the five percent-valued fields (`market_share`, `relative_contact_rate`,
`hospitalized_rate`, `icu_rate`, `ventilated_rate`) by 100 before
placing it in the `Parameters` record, while the corresponding
length-of-stay fields are passed through undivided. -/
theorem assemble_percent_division (d : PyDict) (p : Parameters)
    (h : assembleFromDict d = Except.ok p) :
    ∃ msv rcrv hrv irv vrv,
      dictGet d "market_share" = Option.some msv ∧
        div100 msv = Except.ok p.market_share ∧
      dictGet d "relative_contact_rate" = Option.some rcrv ∧
        div100 rcrv = Except.ok p.relative_contact_rate ∧
      dictGet d "hospitalized_rate" = Option.some hrv ∧
        div100 hrv = Except.ok p.hospitalized.rate ∧
      dictGet d "icu_rate" = Option.some irv ∧
        div100 irv = Except.ok p.icu.rate ∧
      dictGet d "ventilated_rate" = Option.some vrv ∧
        div100 vrv = Except.ok p.ventilated.rate ∧
      dictGet d "hospitalized_los" = Option.some p.hospitalized.days ∧
      dictGet d "icu_los" = Option.some p.icu.days ∧
      dictGet d "ventilated_los" = Option.some p.ventilated.days := by
  obtain ⟨_, _, _, hrv, irv, _, msv, _, rcrv, vrv,
    _, _, _, hghr, hghl, hgir, hgil, _, hgms, _, hgrcr, hgvr, hgvl,
    _, _, hdhr, hdir, _, hdms, _, hdrcr, hdvr, _, _, _⟩ :=
      assemble_ok_spec d p h
  exact ⟨msv, rcrv, hrv, irv, vrv, hgms, hdms, hgrcr, hdrcr, hghr, hdhr,
    hgir, hdir, hgvr, hdvr, hghl, hgil, hgvl⟩

/-- Witness for C2 at a concrete form state: a coerced
`hospitalized_rate` of 8.0 percent lands in the disposition as rate
0.08. -/
theorem assemble_percent_division_witness :
    assembleFromDict sampleCoerced = Except.ok sampleParams ∧
    dictGet sampleCoerced "hospitalized_rate" = Option.some (Val.float 8) ∧
    sampleParams.hospitalized.rate = Val.float (8 / 100) ∧
    (∃ msv rcrv hrv irv vrv,
      dictGet sampleCoerced "market_share" = Option.some msv ∧
        div100 msv = Except.ok sampleParams.market_share ∧
      dictGet sampleCoerced "relative_contact_rate" = Option.some rcrv ∧
        div100 rcrv = Except.ok sampleParams.relative_contact_rate ∧
      dictGet sampleCoerced "hospitalized_rate" = Option.some hrv ∧
        div100 hrv = Except.ok sampleParams.hospitalized.rate ∧
      dictGet sampleCoerced "icu_rate" = Option.some irv ∧
        div100 irv = Except.ok sampleParams.icu.rate ∧
      dictGet sampleCoerced "ventilated_rate" = Option.some vrv ∧
        div100 vrv = Except.ok sampleParams.ventilated.rate ∧
      dictGet sampleCoerced "hospitalized_los" =
        Option.some sampleParams.hospitalized.days ∧
      dictGet sampleCoerced "icu_los" = Option.some sampleParams.icu.days ∧
      dictGet sampleCoerced "ventilated_los" =
        Option.some sampleParams.ventilated.days) :=
  ⟨by decide, by decide,
   by
     show Val.float (mkRat 2 25) = Val.float ((8 : ℚ) / 100)
     rw [show (mkRat 2 25 : ℚ) = (8 : ℚ) / 100 from by
       rw [Rat.mkRat_eq_divInt, Rat.divInt_eq_div]; norm_num],
   assemble_percent_division sampleCoerced sampleParams (by decide)⟩

/-- `isSingletonTrue` is true exactly on the literal `[True]`. -/
theorem isSingletonTrue_iff (u : Val) :
    isSingletonTrue u = true ↔ u = Val.list [Val.bool true] := by
  simp [isSingletonTrue]

/-- Claim C3: for every raw input sequence of the correct length (with
parseable date fields, without which the pipeline raises instead of
returning a map), each switch-kind field is mapped to boolean true if
and only if its raw value is exactly `[True]`, and to false for every
other raw value, including the empty collection. -/
theorem switch_coercion_iff
    (v0 v1 v2 v3 v4 v5 v6 v7 v8 v9 v10 v11 v12 v13 v14 v15 v16 v17
      w3 w14 : Val)
    (h3 : dateCoerce? v3 = Option.some w3)
    (h14 : dateCoerce? v14 = Option.some w14) :
    (∀ u, isSingletonTrue u = true ↔ u = Val.list [Val.bool true]) ∧
    ∃ m, get_formated_values
        [v0, v1, v2, v3, v4, v5, v6, v7, v8, v9, v10, v11, v12, v13,
         v14, v15, v16, v17] = Except.ok m ∧
      dictGet m "show_tables" = Option.some (Val.bool (isSingletonTrue v16)) ∧
      dictGet m "show_tool_details" =
        Option.some (Val.bool (isSingletonTrue v17)) := by
  refine ⟨isSingletonTrue_iff, ?_⟩
  refine ⟨_, get_formated_values_eq v0 v1 v2 v3 v4 v5 v6 v7 v8 v9 v10 v11
    v12 v13 v14 v15 v16 v17 w3 w14 h3 h14, ?_, ?_⟩ <;>
      simp [dictGet, switchCoerced]

/-- Witness for C3 at a concrete form: `show_tables` raw `[True]`
coerces to true, `show_tool_details` raw `[]` to false. -/
theorem switch_coercion_iff_witness :
    dateCoerce? (Val.str "2020-03-01") =
      Option.some (Val.date ⟨2020, 3, 1⟩) ∧
    dateCoerce? (Val.str "2020-03-27") =
      Option.some (Val.date ⟨2020, 3, 27⟩) ∧
    ((∀ u, isSingletonTrue u = true ↔ u = Val.list [Val.bool true]) ∧
     ∃ m, get_formated_values sampleRaw = Except.ok m ∧
       dictGet m "show_tables" =
         Option.some (Val.bool (isSingletonTrue (Val.list [Val.bool true]))) ∧
       dictGet m "show_tool_details" =
         Option.some (Val.bool (isSingletonTrue (Val.list [])))) :=
  ⟨by decide, by decide,
   switch_coercion_iff (Val.int 500000) (Val.float 15) (Val.int 50)
     (Val.str "2020-03-01") (Val.float (mkRat 9 2)) (Val.float 30)
     (Val.float 8) (Val.float 2) (Val.float 1) (Val.int 14) (Val.int 7)
     (Val.int 9) (Val.int 10) (Val.int 60) (Val.str "2020-03-27") Val.none
     (Val.list [Val.bool true]) (Val.list [])
     (Val.date ⟨2020, 3, 1⟩) (Val.date ⟨2020, 3, 27⟩)
     (by decide) (by decide)⟩

/-- `zip` ignores a second-list suffix beyond the first list's length. -/
theorem zip_append_left {α β : Type} :
    ∀ (ks : List α) (vs extra : List β), ks.length ≤ vs.length →
      List.zip ks (vs ++ extra) = List.zip ks vs
  | [], _, _, _ => by simp
  | _ :: _, [], _, h => by simp at h
  | k :: ks, v :: vs, extra, h => by
      simpa [List.zip_cons_cons] using
        zip_append_left ks vs extra (Nat.le_of_succ_le_succ h)

/-- Claim C4 counterexample: a raw sequence of 19 values (one more than
the 18 interactive keys) does not make the pipeline fail — there is no
schema-mismatch error anywhere in the module; `dict(zip(...))` silently
drops the extra value. -/
theorem length_mismatch_no_error :
    (sampleRaw ++ [Val.int 99]).length ≠ get_ordered_input_keys.length ∧
    (get_formated_values (sampleRaw ++ [Val.int 99])).isOk = true := by
  exact ⟨by decide, by decide⟩

/-- Claim C4 amended: surplus raw values are silently dropped
(`dict(zip(...))` truncates to the shorter sequence, so the result is
identical to coercing the first 18 values); a shortfall instead raises a
`KeyError` on the first switch- or date-kind key left unpaired (for 17
values, `show_tool_details`) — in neither case is a schema-mismatch
error raised. -/
theorem length_mismatch_behavior :
    (∀ (vs extra : List Val), vs.length = 18 →
        get_formated_values (vs ++ extra) = get_formated_values vs) ∧
    get_formated_values (sampleRaw.take 17) =
      Except.error (PyError.keyError "show_tool_details") := by
  constructor
  · intro vs extra hlen
    unfold get_formated_values
    rw [zip_append_left get_ordered_input_keys vs extra (by rw [hlen]; decide)]
  · decide

/-- Witness for the amended C4 at a concrete input: appending a 19th
value changes nothing. -/
theorem length_mismatch_behavior_witness :
    sampleRaw.length = 18 ∧
    get_formated_values (sampleRaw ++ [Val.int 99]) =
      get_formated_values sampleRaw :=
  ⟨by decide, length_mismatch_behavior.1 sampleRaw [Val.int 99] (by decide)⟩

/-- Claim C5 (spec-modelled validation): the assembler, including the
bounds validation the spec attributes to the external `Parameters`
constructor, rejects `n_days = 29` with a `ValidationError` naming
`n_days`, accepts `n_days = 30`, and does not silently substitute a
default for a missing required numeric field such as `population`. -/
theorem n_days_bound_validation :
    validatedAssemble (dictSet sampleCoerced "n_days" (Val.int 29)) =
      Except.error
        (AssembleError.validation (ValidationError.outOfRange "n_days")) ∧
    (validatedAssemble (dictSet sampleCoerced "n_days" (Val.int 30))).isOk
      = true ∧
    validatedAssemble (sampleCoerced.filter fun kv => !(kv.1 == "population")) =
      Except.error
        (AssembleError.validation (ValidationError.missingField "population"))
    := by
  exact ⟨by decide, by decide, by decide⟩

/-- Claim C6: a date-kind field's non-empty parseable `YYYY-MM-DD` raw
string becomes a calendar date in the coerced map, a falsy (empty or
absent) raw value passes through unchanged, and the conversion
round-trips: `"2021-03-15"` parses to a date that re-serializes to
`"2021-03-15"`. -/
theorem date_coercion_round_trip :
    (∀ v0 v1 v2 v3 v4 v5 v6 v7 v8 v9 v10 v11 v12 v13 v14 v15 v16 v17
        w3 w14 : Val, dateCoerce? v3 = Option.some w3 →
        dateCoerce? v14 = Option.some w14 →
      ∃ m, get_formated_values
          [v0, v1, v2, v3, v4, v5, v6, v7, v8, v9, v10, v11, v12, v13,
           v14, v15, v16, v17] = Except.ok m ∧
        dictGet m "date_first_hospitalized" = Option.some w3 ∧
        dictGet m "current_date" = Option.some w14) ∧
    (∀ (s : String) (dd : PyDate), parseDate s = Option.some dd →
        dateCoerce? (Val.str s) = Option.some (Val.date dd)) ∧
    (∀ v : Val, truthy v = false → dateCoerce? v = Option.some v) ∧
    parseDate "2021-03-15" = Option.some ⟨2021, 3, 15⟩ ∧
    toIso ⟨2021, 3, 15⟩ = "2021-03-15" := by
  refine ⟨?_, ?_, ?_, by decide, by decide⟩
  · intro v0 v1 v2 v3 v4 v5 v6 v7 v8 v9 v10 v11 v12 v13 v14 v15 v16 v17
      w3 w14 h3 h14
    exact ⟨_, get_formated_values_eq v0 v1 v2 v3 v4 v5 v6 v7 v8 v9 v10 v11
      v12 v13 v14 v15 v16 v17 w3 w14 h3 h14,
      by simp [dictGet], by simp [dictGet]⟩
  · intro s dd h
    have hne : s ≠ "" := by
      rintro rfl
      simp [parseDate, splitOnChar] at h
    have ht : (s != "") = true := by simpa using hne
    simp [dateCoerce?, truthy, ht, h]
  · intro v hv
    simp [dateCoerce?, hv]

/-- Witness for C6 at concrete inputs: `"2021-03-15"` becomes a date in
the coerced map, an empty `current_date` string passes through. -/
theorem date_coercion_round_trip_witness :
    dateCoerce? (Val.str "2021-03-15") =
      Option.some (Val.date ⟨2021, 3, 15⟩) ∧
    dateCoerce? (Val.str "") = Option.some (Val.str "") ∧
    ∃ m, get_formated_values
        [Val.int 1, Val.int 1, Val.int 1, Val.str "2021-03-15", Val.int 1,
         Val.int 1, Val.int 1, Val.int 1, Val.int 1, Val.int 1, Val.int 1,
         Val.int 1, Val.int 1, Val.int 1, Val.str "", Val.none,
         Val.list [], Val.list []] = Except.ok m ∧
      dictGet m "date_first_hospitalized" =
        Option.some (Val.date ⟨2021, 3, 15⟩) ∧
      dictGet m "current_date" = Option.some (Val.str "") :=
  ⟨by decide, by decide,
   date_coercion_round_trip.1 (Val.int 1) (Val.int 1) (Val.int 1)
     (Val.str "2021-03-15") (Val.int 1) (Val.int 1) (Val.int 1) (Val.int 1)
     (Val.int 1) (Val.int 1) (Val.int 1) (Val.int 1) (Val.int 1) (Val.int 1)
     (Val.str "") Val.none (Val.list []) (Val.list [])
     (Val.date ⟨2021, 3, 15⟩) (Val.str "") (by decide) (by decide)⟩

/-- A successful `Except.ok` feeds its value straight to the
continuation. -/
theorem except_ok_bind {ε α β : Type} (a : α) (f : α → Except ε β) :
    (Except.ok a : Except ε α) >>= f = f a := rfl

/-- The source's filter-then-format comprehension produces exactly the
per-entry serialization the spec describes. -/
theorem queryParts_eq_spec (d : PyDict) : queryParts d = specQueryParts d := by
  induction d with
  | nil => rfl
  | cons kv rest ih =>
      obtain ⟨k, v⟩ := kv
      by_cases h1 : k = "model"
      · subst h1
        cases v <;>
          simp_all [queryParts, specQueryParts, List.filter_cons,
            List.filterMap_cons, isNotNone]
      · by_cases h2 : k = "pars"
        · subst h2
          cases v <;>
            simp_all [queryParts, specQueryParts, List.filter_cons,
              List.filterMap_cons, isNotNone]
        · cases v <;>
            simp_all [queryParts, specQueryParts, List.filter_cons,
              List.filterMap_cons, isNotNone]

/-- Claim C7: the download link is the base path, `?`, and the `key=value`
serialization of every coerced map entry joined with `&` in table order,
excluding the transient `model`/`pars` keys and omitting null-valued
entries entirely; `{a: 1, b: null, c: "x"}` on base `/download` gives
exactly `/download?a=1&c=x`. -/
theorem download_link_query_format :
    (∀ (base : String) (d : PyDict),
        buildLink base d =
          base ++ "?" ++ String.intercalate "&" (specQueryParts d)) ∧
    buildLink "/download"
        [("a", Val.int 1), ("b", Val.none), ("c", Val.str "x")] =
      "/download?a=1&c=x" ∧
    (∀ (vs : List Val) (d : PyDict), get_formated_values vs = Except.ok d →
        get_download_as_pdf_link vs =
          Except.ok (buildLink DOWNLOAD_AS_PDF_URL d)) := by
  refine ⟨?_, by decide, ?_⟩
  · intro base d
    rw [buildLink, queryParts_eq_spec]
  · intro vs d h
    simp [get_download_as_pdf_link, h, except_ok_bind]

/-- Witness for C7 at a concrete form state. -/
theorem download_link_query_format_witness :
    get_formated_values sampleRaw = Except.ok sampleCoerced ∧
    get_download_as_pdf_link sampleRaw =
      Except.ok (buildLink DOWNLOAD_AS_PDF_URL sampleCoerced) :=
  ⟨by decide,
   download_link_query_format.2.2 sampleRaw sampleCoerced (by decide)⟩

/-- `sampleRaw` with an unparseable `date_first_hospitalized` string. -/
def badRaw : List Val := sampleRaw.set 3 (Val.str "not-a-date")

/-- Claim C8 counterexample: an unparseable date string makes the
pipeline raise a `ValueError` carrying the offending raw value — not the
field key (`"not-a-date" ≠ "date_first_hospitalized"`) — and no coerced
map is produced at all, so the other fields are not coerced either. -/
theorem bad_date_error_names_value_not_key :
    get_formated_values badRaw =
      Except.error (PyError.valueError "not-a-date") ∧
    (get_formated_values badRaw).isOk = false ∧
    "not-a-date" ≠ "date_first_hospitalized" := by
  exact ⟨by decide, by decide, by decide⟩

/-- Claim C8 amended: a non-empty unparseable date string raises a
`ValueError` identifying the offending raw value (Python's `strptime`
message names the time data and format, not the field key), and the
error aborts the coercion of the entire map: nothing is returned for the
remaining fields. -/
theorem bad_date_aborts_coercion
    (v0 v1 v2 v4 v5 v6 v7 v8 v9 v10 v11 v12 v13 v14 v15 v16 v17 : Val)
    (s : String) (hne : s ≠ "") (hbad : parseDate s = Option.none) :
    get_formated_values
      [v0, v1, v2, Val.str s, v4, v5, v6, v7, v8, v9, v10, v11, v12, v13,
       v14, v15, v16, v17] = Except.error (PyError.valueError s) := by
  have ht : (s != "") = true := by simpa using hne
  simp [get_formated_values, get_ordered_input_keys, INPUTS, isInteractive,
    applyCoercions, coerceField, headerSpec, numSpec, pctSpec, dateSpec,
    switchSpec, linkSpec, dictGet, truthy, ht, hbad]

/-- Witness for the amended C8 at a concrete input. -/
theorem bad_date_aborts_coercion_witness :
    "xyz" ≠ "" ∧ parseDate "xyz" = Option.none ∧
    get_formated_values
      [Val.int 1, Val.int 1, Val.int 1, Val.str "xyz", Val.int 1, Val.int 1,
       Val.int 1, Val.int 1, Val.int 1, Val.int 1, Val.int 1, Val.int 1,
       Val.int 1, Val.int 1, Val.none, Val.none, Val.list [], Val.list []] =
      Except.error (PyError.valueError "xyz") :=
  ⟨by decide, by decide,
   bad_date_aborts_coercion (Val.int 1) (Val.int 1) (Val.int 1) (Val.int 1)
     (Val.int 1) (Val.int 1) (Val.int 1) (Val.int 1) (Val.int 1) (Val.int 1)
     (Val.int 1) (Val.int 1) (Val.int 1) Val.none Val.none (Val.list [])
     (Val.list []) "xyz" (by decide) (by decide)⟩

/-- Claim C9: `get_ordered_input_keys` is exactly the table's
non-header, non-link keys in table order, and on any well-formed raw
sequence of that length the coerced map's key set is exactly that key
list. -/
theorem ordered_keys_and_coerced_key_set :
    get_ordered_input_keys =
      ["population", "market_share", "current_hospitalized",
       "date_first_hospitalized", "doubling_time", "relative_contact_rate",
       "hospitalized_rate", "icu_rate", "ventilated_rate",
       "infectious_days", "hospitalized_los", "icu_los", "ventilated_los",
       "n_days", "current_date", "max_y_axis_value", "show_tables",
       "show_tool_details"] ∧
    (∀ v0 v1 v2 v3 v4 v5 v6 v7 v8 v9 v10 v11 v12 v13 v14 v15 v16 v17
        w3 w14 : Val, dateCoerce? v3 = Option.some w3 →
        dateCoerce? v14 = Option.some w14 →
      ∃ m, get_formated_values
          [v0, v1, v2, v3, v4, v5, v6, v7, v8, v9, v10, v11, v12, v13,
           v14, v15, v16, v17] = Except.ok m ∧
        m.map Prod.fst = get_ordered_input_keys) := by
  refine ⟨by decide, ?_⟩
  intro v0 v1 v2 v3 v4 v5 v6 v7 v8 v9 v10 v11 v12 v13 v14 v15 v16 v17
    w3 w14 h3 h14
  exact ⟨_, get_formated_values_eq v0 v1 v2 v3 v4 v5 v6 v7 v8 v9 v10 v11
    v12 v13 v14 v15 v16 v17 w3 w14 h3 h14, rfl⟩

/-- Witness for C9 at a concrete form state. -/
theorem ordered_keys_and_coerced_key_set_witness :
    ∃ m, get_formated_values sampleRaw = Except.ok m ∧
      m.map Prod.fst = get_ordered_input_keys :=
  (ordered_keys_and_coerced_key_set.2 (Val.int 500000) (Val.float 15)
    (Val.int 50) (Val.str "2020-03-01") (Val.float (mkRat 9 2))
    (Val.float 30) (Val.float 8) (Val.float 2) (Val.float 1) (Val.int 14)
    (Val.int 7) (Val.int 9) (Val.int 10) (Val.int 60)
    (Val.str "2020-03-27") Val.none (Val.list [Val.bool true])
    (Val.list []) (Val.date ⟨2020, 3, 1⟩) (Val.date ⟨2020, 3, 27⟩)
    (by decide) (by decide))

/-- An entry with a non-null value and a non-transient key always
produces its `key=value` part. -/
theorem mem_queryParts {d : PyDict} {k : String} {v : Val}
    (hmem : (k, v) ∈ d) (hv : isNotNone v = true)
    (h1 : k ≠ "model") (h2 : k ≠ "pars") :
    (k ++ "=" ++ pyStr v) ∈ queryParts d := by
  unfold queryParts
  refine List.mem_map.2 ⟨(k, v), List.mem_filter.2 ⟨hmem, ?_⟩, rfl⟩
  simp [h1, h2, hv]

/-- `sampleRaw` with an empty `current_date` raw string. -/
def sampleRawEmptyDate : List Val := sampleRaw.set 14 (Val.str "")

/-- Claim C10: the link builder omits an entry only when its value is
exactly `None`: every non-null entry (outside `model`/`pars`) is
rendered, a switch coerced to false appears as `key=False`, and an
empty-string date value appears as `key=` — while the null
`max_y_axis_value` in the same map is omitted. -/
theorem link_renders_falsy_values :
    (∀ (d : PyDict) (k : String) (v : Val),
        (k, v) ∈ d → v ≠ Val.none → k ≠ "model" → k ≠ "pars" →
        (k ++ "=" ++ pyStr v) ∈ queryParts d) ∧
    pyStr (Val.bool false) = "False" ∧
    pyStr (Val.str "") = "" ∧
    ∃ m, get_formated_values sampleRawEmptyDate = Except.ok m ∧
      dictGet m "show_tool_details" = Option.some (Val.bool false) ∧
      dictGet m "current_date" = Option.some (Val.str "") ∧
      dictGet m "max_y_axis_value" = Option.some Val.none ∧
      "show_tool_details=False" ∈ queryParts m ∧
      "current_date=" ∈ queryParts m ∧
      "max_y_axis_value=None" ∉ queryParts m := by
  refine ⟨?_, by decide, by decide, ?_⟩
  · intro d k v hmem hv h1 h2
    refine mem_queryParts hmem ?_ h1 h2
    cases v <;> simp_all [isNotNone]
  · exact ⟨dictSet sampleCoerced "current_date" (Val.str ""), by decide,
      by decide, by decide, by decide, by decide, by decide, by decide⟩

/-- Witness for C10 at a concrete map: the false switch of
`sampleCoerced` is rendered. -/
theorem link_renders_falsy_values_witness :
    ("show_tool_details" ++ "=" ++ pyStr (Val.bool false)) ∈
      queryParts sampleCoerced :=
  link_renders_falsy_values.1 sampleCoerced "show_tool_details"
    (Val.bool false) (by decide) (by decide) (by decide) (by decide)

end Chime
